import Mathlib

/-!
Verification of the event-dispatch core in `src/h_server/task/task_system.py`.

The file has two layers:

1. A shallow embedding of the per-event handler `_process_event`
   (task_system.py lines 79-115) as a pure function from the outcome of
   `runner.process_event` to a trace of queue/registry/log effects, where
   each `with fail_after(d, shield=s)` block is recorded with its deadline
   and shield flag.

2. A small-step machine for the dispatch loop in `TaskSystem.start`
   (lines 53-125): the loop receives events, resolves or constructs
   runners, and spawns handlers that run later.  Crucially, in the source
   the closure `_process_event` receives `ack_id` and `event` as
   parameters (bound at spawn time, line 117) but reads `runner` and
   `task_id` as free variables of the enclosing `start` frame, which the
   loop reassigns on every iteration (lines 64-76); the machine models
   this by having a handler read the loop frame at the moment it runs.

Lifecycle (`stop`, lines 127-131) and the module-level singleton
(`get_task_system` / `set_task_system`, lines 134-145) are embedded as
pure state transformers at the end of the definitions section.
-/

/-- Outcome of one call to `runner.process_event(event)` as observed by the
handler `try`/`except` dispatch (task_system.py lines 80-115): a normal
return carrying the `finished` flag, a cancellation exception, a `TaskError`
carrying its `retry` flag, or any other exception. -/
inductive ProcessResult : Type
  | ok (finished : Bool)
  | cancelled
  | taskError (retry : Bool)
  | otherError
deriving DecidableEq

/-- One observable effect performed by the handler: a registry deletion
(`del self._runners[task_id]`), a queue acknowledgment (`ack`), a negative
acknowledgment (`no_ack`), a backoff sleep (`await sleep(...)`, seconds as a
rational), or a log call at debug or error severity. -/
inductive Effect : Type
  | removeRunner (task_id : Nat)
  | ack (ack_id : Nat)
  | noAck (ack_id : Nat)
  | sleep (seconds : ℚ)
  | logDebug
  | logError
deriving DecidableEq

/-- A `with fail_after(deadline, shield=shield):` block and the effects the
handler performs inside it. -/
structure ShieldedBlock : Type where
  deadline : ℚ
  shield : Bool
  effects : List Effect
deriving DecidableEq

/-- One step of the handler body: either a `fail_after` block or a bare
effect performed outside any deadline scope. -/
inductive HStep : Type
  | blocked (b : ShieldedBlock)
  | plain (e : Effect)
deriving DecidableEq

/-- How the handler terminates: a normal return, or re-raising the caught
cancellation exception (`raise e`, line 93). -/
inductive HandlerOutcome : Type
  | normal
  | reraisedCancelled
deriving DecidableEq

/-- The full observable run of one handler invocation. -/
structure HandlerRun : Type where
  steps : List HStep
  outcome : HandlerOutcome
deriving DecidableEq

/-- Effects of a single handler step, forgetting the deadline scope. -/
def HStep.effects : HStep → List Effect
  | HStep.blocked b => b.effects
  | HStep.plain e => [e]

/-- Flat effect trace of a handler run, in program order. -/
def HandlerRun.effects (r : HandlerRun) : List Effect :=
  (r.steps.map HStep.effects).flatten

/-- Shallow embedding of `_process_event` (task_system.py lines 79-115).
`retry_delay` is `self._retry_delay`, `task_id` and `runner` identity are
the values the handler body reads from the enclosing frame when it runs
(see the dispatch machine below for how those are resolved), `ack_id` is
the delivery handle parameter, and `result` is the outcome of
`await runner.process_event(event)`.  Branches, in source order:
success (lines 81-89), cancellation (90-93), `TaskError` with retry
(94-102), `TaskError` without retry (103-108), any other exception
(109-115).  Every `fail_after` in the source passes `shield=True`. -/
def _process_event (retry_delay : ℚ) (task_id ack_id : Nat)
    (result : ProcessResult) : HandlerRun :=
  match result with
  | ProcessResult.ok finished =>
      { steps := [HStep.blocked
          { deadline := 5, shield := true,
            effects :=
              (if finished then [Effect.removeRunner task_id, Effect.logDebug]
               else []) ++ [Effect.ack ack_id, Effect.logDebug] }],
        outcome := HandlerOutcome.normal }
  | ProcessResult.cancelled =>
      { steps := [HStep.blocked
          { deadline := 5, shield := true, effects := [Effect.noAck ack_id] }],
        outcome := HandlerOutcome.reraisedCancelled }
  | ProcessResult.taskError retry =>
      if retry then
        { steps := [HStep.plain Effect.logError,
            HStep.blocked
              { deadline := retry_delay + 5, shield := true,
                effects := [Effect.logDebug, Effect.sleep retry_delay,
                  Effect.noAck ack_id] }],
          outcome := HandlerOutcome.normal }
      else
        { steps := [HStep.plain Effect.logError,
            HStep.blocked
              { deadline := 5, shield := true,
                effects := [Effect.ack ack_id, Effect.removeRunner task_id,
                  Effect.logDebug] }],
          outcome := HandlerOutcome.normal }
  | ProcessResult.otherError =>
      { steps := [HStep.plain Effect.logError, HStep.plain Effect.logError,
          HStep.blocked
            { deadline := 5, shield := true, effects := [Effect.noAck ack_id] }],
        outcome := HandlerOutcome.normal }

example :
    (_process_event 5 1 2 (ProcessResult.ok true)).effects =
      [Effect.removeRunner 1, Effect.logDebug, Effect.ack 2, Effect.logDebug] := by
  decide

example :
    (_process_event 5 1 2 (ProcessResult.taskError true)).effects =
      [Effect.logError, Effect.logDebug, Effect.sleep 5, Effect.noAck 2] := by
  decide

/-- The loop-local variables of one `start` iteration: `task_id` (line 64)
and the resolved `runner` (lines 66 or 68), the latter identified by its
construction index.  These are free variables of the `_process_event`
closure, so a handler reads whatever the loop last assigned to them. -/
structure Frame : Type where
  task_id : Nat
  runner : Nat
deriving DecidableEq

/-- Where the `start` coroutine is currently suspended: at
`await self.event_queue.get()` (line 63), or inside `await runner.init()`
(line 75) after constructing a runner for a first event, carrying that
events delivery handle and task identifier. -/
inductive LoopPhase : Type
  | awaitingEvent
  | initRunning (ack_id : Nat) (task_id : Nat)
deriving DecidableEq

/-- Record of one handler execution: which event it was spawned for
(`event_task_id`, `ack_id`, the spawn-time parameters of line 117) and
which `task_id` / `runner` values it actually read from the loop frame
when it ran. -/
structure Invocation : Type where
  event_task_id : Nat
  ack_id : Nat
  used_task_id : Nat
  used_runner : Nat
deriving DecidableEq

/-- State of the dispatch loop of `TaskSystem.start` together with its
spawned-but-not-yet-run handlers.  `runners` is `self._runners` as an
association list (a Python dict has unique keys; the key-uniqueness is
proved below, not assumed), `next_runner` numbers runner constructions,
`pending` holds the `(ack_id, event.task_id)` pairs passed to
`tg.start_soon`, and `invocations` is the trace of handler executions. -/
structure LoopState : Type where
  runners : List (Nat × Nat)
  frame : Option Frame
  next_runner : Nat
  pending : List (Nat × Nat)
  phase : LoopPhase
  invocations : List Invocation
deriving DecidableEq

/-- Dictionary lookup `self._runners[task_id]` / `task_id in self._runners`
(lines 65-66). -/
def lookupRunner (rs : List (Nat × Nat)) (t : Nat) : Option Nat :=
  (rs.find? fun p => decide (p.1 = t)).map Prod.snd

/-- Dictionary deletion `del self._runners[task_id]` (lines 84 and 107),
as removal of the key when present.  (On an absent key the Python `del`
raises `KeyError` and leaves the dictionary unchanged either way; the
claims under study concern the registry content.) -/
def removeRunnerEntry (rs : List (Nat × Nat)) (t : Nat) : List (Nat × Nat) :=
  rs.filter fun p => decide (p.1 ≠ t)

/-- Registry footprint of one handler effect: only `removeRunner` touches
`self._runners`. -/
def applyEffect (rs : List (Nat × Nat)) : Effect → List (Nat × Nat)
  | Effect.removeRunner t => removeRunnerEntry rs t
  | _ => rs

/-- Registry footprint of an effect trace, applied in program order. -/
def applyEffects (rs : List (Nat × Nat)) (es : List Effect) : List (Nat × Nat) :=
  es.foldl applyEffect rs

/-- One loop iteration up to its first suspension after the receive
(lines 63-74): the queue yields `(ack_id, event)`; the loop binds
`task_id`, then either finds an existing runner — assigning the frame and
spawning the handler with no intervening await — or constructs a fresh
runner and suspends at `await runner.init()` before registering it.
Only possible while the loop sits at the queue receive. -/
def receiveEvent (s : LoopState) (ack_id task_id : Nat) : LoopState :=
  match s.phase with
  | LoopPhase.initRunning _ _ => s
  | LoopPhase.awaitingEvent =>
    match lookupRunner s.runners task_id with
    | some r =>
        { s with frame := some { task_id := task_id, runner := r },
                 pending := s.pending ++ [(ack_id, task_id)] }
    | none =>
        { s with frame := some { task_id := task_id, runner := s.next_runner },
                 next_runner := s.next_runner + 1,
                 phase := LoopPhase.initRunning ack_id task_id }

/-- Completion of `await runner.init()`: the loop registers the new runner
(`self._runners[task_id] = runner`, line 76) and spawns the handler
(line 117), returning to the queue receive. -/
def finishInit (s : LoopState) : LoopState :=
  match s.phase, s.frame with
  | LoopPhase.initRunning ack_id t, some f =>
      { s with runners := s.runners ++ [(f.task_id, f.runner)],
               pending := s.pending ++ [(ack_id, t)],
               phase := LoopPhase.awaitingEvent }
  | _, _ => s

/-- Execution of the pending handler at index `i` with `process_event`
outcome `result`, at a moment the loop itself is suspended.  The handler
body reads the free variables `runner` and `task_id` from the CURRENT
frame — not from the iteration that spawned it (in the source `runner` is
read when line 81 starts and `task_id` when line 84 or 107 runs, both
after the loop may have advanced) — and its registry effects are those of
its `_process_event` trace. -/
def runHandler (s : LoopState) (i : Nat) (retry_delay : ℚ)
    (result : ProcessResult) : LoopState :=
  match s.pending.get? i, s.frame with
  | some (ack_id, ev_task), some f =>
      { s with
          pending := s.pending.eraseIdx i,
          invocations := s.invocations ++
            [{ event_task_id := ev_task, ack_id := ack_id,
               used_task_id := f.task_id, used_runner := f.runner }],
          runners := applyEffects s.runners
            (_process_event retry_delay f.task_id ack_id result).effects }
  | _, _ => s

/-- The state in which `start` enters its loop: empty registry, no frame
assigned yet, no handlers spawned. -/
def initialLoopState : LoopState :=
  { runners := [], frame := none, next_runner := 0, pending := [],
    phase := LoopPhase.awaitingEvent, invocations := [] }

/-- States the dispatch loop can reach from the start of the loop by
receiving events, finishing runner initialisations, and running pending
handlers in any interleaving. -/
inductive Reachable : LoopState → Prop
  | init : Reachable initialLoopState
  | receive {s : LoopState} (ack_id task_id : Nat) :
      Reachable s → Reachable (receiveEvent s ack_id task_id)
  | finish {s : LoopState} :
      Reachable s → Reachable (finishInit s)
  | handler {s : LoopState} (i : Nat) (d : ℚ) (r : ProcessResult) :
      Reachable s → Reachable (runHandler s i d r)

/-- Lifecycle fields of a `TaskSystem` instance seen by `stop`
(lines 127-131): `self._stop_event` is `None` before `start` runs and
after its `finally` block (lines 123-125), otherwise carries whether the
event is set; `self._tg` likewise is `None` outside `start`, otherwise
carries `cancel_scope.cancel_called`. -/
structure LifecycleState : Type where
  stop_event : Option Bool
  tg_cancel : Option Bool
deriving DecidableEq

/-- `TaskSystem.stop` (lines 127-131): set the stop event when one exists,
then cancel the task-group scope when a task group exists and its scope
has not already been cancelled. -/
def TaskSystem.stop (s : LifecycleState) : LifecycleState :=
  let s1 := match s.stop_event with
    | none => s
    | some _ => { s with stop_event := some true }
  match s1.tg_cancel with
  | none => s1
  | some c => if c then s1 else { s1 with tg_cancel := some true }

/-- Number of `cancel_scope.cancel()` calls a `stop()` from state `s`
performs: one exactly when a task group exists whose scope is not yet
cancelled (the guard on line 130). -/
def TaskSystem.stopCancels (s : LifecycleState) : Nat :=
  match s.tg_cancel with
  | none => 0
  | some c => if c then 0 else 1

/-- `set_task_system` (lines 143-146): unconditionally overwrite the
module-level `_default_task_system` slot. -/
def set_task_system {α : Type} (slot : Option α) (task_system : α) : Option α :=
  some task_system

/-- `get_task_system` (lines 137-140): return the stored instance, failing
the assertion when the slot is empty. -/
def get_task_system {α : Type} (slot : Option α) : Except String α :=
  match slot with
  | none => Except.error "TaskSystem has not been set."
  | some ts => Except.ok ts

/-- Recognise an `ack` call, whatever its handle. -/
def Effect.isAck : Effect → Bool
  | Effect.ack _ => true
  | _ => false

/-- Recognise a `no_ack` call, whatever its handle. -/
def Effect.isNoAck : Effect → Bool
  | Effect.noAck _ => true
  | _ => false

/-- Recognise a registry deletion, whatever its key. -/
def Effect.isRemove : Effect → Bool
  | Effect.removeRunner _ => true
  | _ => false

/-- Recognise a backoff sleep, whatever its duration. -/
def Effect.isSleep : Effect → Bool
  | Effect.sleep _ => true
  | _ => false

/-- True when some step of the run performs a sleep inside a block whose
shield flag is set. -/
def sleepSomewhereShielded (r : HandlerRun) : Bool :=
  r.steps.any fun st => match st with
    | HStep.blocked b => (b.effects.any Effect.isSleep) && b.shield
    | HStep.plain _ => false

/-- True when every sleep performed by the run happens inside a block
whose shield flag is set (a sleep outside any block, or inside an
unshielded block, refutes this). -/
def sleepAlwaysShielded (r : HandlerRun) : Bool :=
  r.steps.all fun st => match st with
    | HStep.blocked b => !(b.effects.any Effect.isSleep) || b.shield
    | HStep.plain e => ! (Effect.isSleep e)

/-- First dispatch scenario: events `(ack 1, task 1)` and `(ack 2, task 2)`
are received back-to-back, both constructing fresh runners, while the
handler spawned for the first event has not yet run. -/
def backToBackState : LoopState :=
  finishInit (receiveEvent (finishInit (receiveEvent initialLoopState 1 1)) 2 2)

/-- The state after the pending handler for the FIRST event (index 0) then
runs and its `process_event` reports `finished=true`. -/
def staleFrameFinal : LoopState :=
  runHandler backToBackState 0 5 (ProcessResult.ok true)

/-- Key-uniqueness invariant of the runner registry, together with the
bookkeeping needed to preserve it: while the loop is inside
`await runner.init()` for a first event, the frame holds that events task
identifier and that identifier is not yet registered. -/
def RegistryInv (s : LoopState) : Prop :=
  (s.runners.map Prod.fst).Nodup ∧
  ∀ a t, s.phase = LoopPhase.initRunning a t →
    (∃ f, s.frame = some f ∧ f.task_id = t) ∧ t ∉ s.runners.map Prod.fst

theorem lookupRunner_eq_none_iff {rs : List (Nat × Nat)} {t : Nat} :
    lookupRunner rs t = none ↔ t ∉ rs.map Prod.fst := by
  simp only [lookupRunner, Option.map_eq_none', List.find?_eq_none,
    decide_eq_true_eq, List.mem_map]
  constructor
  · rintro h ⟨p, hp, hpt⟩
    exact h p hp hpt
  · intro h p hp hpt
    exact h ⟨p, hp, hpt⟩

theorem applyEffect_sublist (rs : List (Nat × Nat)) (e : Effect) :
    (applyEffect rs e).Sublist rs := by
  cases e
  case removeRunner t => exact List.filter_sublist rs
  all_goals exact List.Sublist.refl rs

theorem applyEffects_sublist (es : List Effect) (rs : List (Nat × Nat)) :
    (applyEffects rs es).Sublist rs := by
  induction es generalizing rs with
  | nil => exact List.Sublist.refl rs
  | cons e es ih => exact (ih (applyEffect rs e)).trans (applyEffect_sublist rs e)

theorem registryInv_receiveEvent {s : LoopState} (h : RegistryInv s)
    (ack t : Nat) : RegistryInv (receiveEvent s ack t) := by
  obtain ⟨hnd, hinit⟩ := h
  unfold receiveEvent
  cases hph : s.phase with
  | initRunning a0 t0 => exact ⟨hnd, fun a t ht => hinit a t (hph ▸ ht)⟩
  | awaitingEvent =>
    cases hl : lookupRunner s.runners t with
    | some r =>
      refine ⟨hnd, fun a0 t0 ht => ?_⟩
      have ht2 : LoopPhase.awaitingEvent = LoopPhase.initRunning a0 t0 := ht
      exact absurd ht2 (by simp)
    | none =>
      refine ⟨hnd, fun a0 t0 ht => ?_⟩
      have ht2 : LoopPhase.initRunning ack t = LoopPhase.initRunning a0 t0 := ht
      injection ht2 with ha htt
      subst ha
      subst htt
      exact ⟨⟨{ task_id := t, runner := s.next_runner }, rfl, rfl⟩,
        lookupRunner_eq_none_iff.mp hl⟩

theorem registryInv_finishInit {s : LoopState} (h : RegistryInv s) :
    RegistryInv (finishInit s) := by
  obtain ⟨hnd, hinit⟩ := h
  unfold finishInit
  cases hph : s.phase with
  | awaitingEvent =>
    cases s.frame <;> exact ⟨hnd, fun a t ht => hinit a t (hph ▸ ht)⟩
  | initRunning a0 t0 =>
    obtain ⟨⟨f, hf, hft⟩, hnotin⟩ := hinit a0 t0 hph
    rw [hf]
    constructor
    · simp only [List.map_append, List.map_cons, List.map_nil]
      rw [List.nodup_append]
      refine ⟨hnd, List.nodup_singleton _, ?_⟩
      intro x hx hx1
      simp only [List.mem_singleton] at hx1
      subst hx1
      rw [hft] at hx
      exact hnotin hx
    · intro a t ht
      exact absurd ht (by simp)

theorem registryInv_runHandler {s : LoopState} (h : RegistryInv s)
    (i : Nat) (d : ℚ) (r : ProcessResult) : RegistryInv (runHandler s i d r) := by
  obtain ⟨hnd, hinit⟩ := h
  unfold runHandler
  cases hp : s.pending.get? i with
  | none => exact ⟨hnd, hinit⟩
  | some pr =>
    cases hfr : s.frame with
    | none => exact ⟨hnd, hinit⟩
    | some f =>
      obtain ⟨ack, ev⟩ := pr
      constructor
      · exact List.Nodup.sublist
          (List.Sublist.map Prod.fst (applyEffects_sublist _ _)) hnd
      · intro a t ht
        have ht2 : s.phase = LoopPhase.initRunning a t := ht
        obtain ⟨⟨f0, hf0, hft0⟩, hnotin⟩ := hinit a t ht2
        have hff : f0 = f := by
          rw [hfr] at hf0
          exact (Option.some.inj hf0).symm
        refine ⟨⟨f, rfl, ?_⟩, fun hmem => hnotin ?_⟩
        · rw [← hff]
          exact hft0
        · exact (List.Sublist.map Prod.fst (applyEffects_sublist _ _)).subset hmem

theorem reachable_registryInv {s : LoopState} (hs : Reachable s) :
    RegistryInv s := by
  induction hs with
  | init =>
    refine ⟨List.nodup_nil, fun a t ht => ?_⟩
    exact absurd ht (by simp [initialLoopState])
  | receive ack t _ ih => exact registryInv_receiveEvent ih ack t
  | finish _ ih => exact registryInv_finishInit ih
  | handler i d r _ ih => exact registryInv_runHandler ih i d r

theorem receiveEvent_existing {s : LoopState} {t : Nat}
    (ht : t ∈ s.runners.map Prod.fst) (ack : Nat) :
    (receiveEvent s ack t).runners = s.runners ∧
    (receiveEvent s ack t).next_runner = s.next_runner := by
  unfold receiveEvent
  cases hph : s.phase with
  | initRunning a0 t0 => exact ⟨rfl, rfl⟩
  | awaitingEvent =>
    cases hl : lookupRunner s.runners t with
    | some r => exact ⟨rfl, rfl⟩
    | none => exact absurd ht (lookupRunner_eq_none_iff.mp hl)

/-- C2: for every event for which `process_event` returns `finished=true`,
the handler removes that tasks runner from the registry strictly before it
calls `ack` on the delivery handle, and `ack` is called exactly once. -/
theorem finished_removal_precedes_ack (d : ℚ) (t a : Nat) :
    (_process_event d t a (ProcessResult.ok true)).effects.filter Effect.isAck =
      [Effect.ack a] ∧
    (_process_event d t a (ProcessResult.ok true)).effects.filter Effect.isRemove =
      [Effect.removeRunner t] ∧
    ∃ i j, i < j ∧
      (_process_event d t a (ProcessResult.ok true)).effects.get? i =
        some (Effect.removeRunner t) ∧
      (_process_event d t a (ProcessResult.ok true)).effects.get? j =
        some (Effect.ack a) :=
  ⟨rfl, rfl, 0, 2, Nat.zero_lt_succ 1, rfl, rfl⟩

/-- C3: for every event whose `process_event` raises a `TaskError` with
`retry=true`, the handler sleeps the configured backoff delay and then
calls `no_ack` exactly once; no `ack` is issued and the registry is left
unchanged. -/
theorem retryable_failure_backoff_then_noack (d : ℚ) (t a : Nat) :
    (_process_event d t a (ProcessResult.taskError true)).effects.filter Effect.isNoAck =
      [Effect.noAck a] ∧
    (_process_event d t a (ProcessResult.taskError true)).effects.filter Effect.isAck =
      [] ∧
    (_process_event d t a (ProcessResult.taskError true)).effects.filter Effect.isRemove =
      [] ∧
    ∃ i j, i < j ∧
      (_process_event d t a (ProcessResult.taskError true)).effects.get? i =
        some (Effect.sleep d) ∧
      (_process_event d t a (ProcessResult.taskError true)).effects.get? j =
        some (Effect.noAck a) :=
  ⟨rfl, rfl, rfl, 2, 3, Nat.lt_succ_self 2, rfl, rfl⟩

/-- C4: for every event whose `process_event` raises a `TaskError` with
`retry=false`, the handler issues exactly one `ack` and exactly one
registry removal, and never calls `no_ack`. -/
theorem nonretryable_failure_ack_and_remove (d : ℚ) (t a : Nat) :
    (_process_event d t a (ProcessResult.taskError false)).effects.filter Effect.isAck =
      [Effect.ack a] ∧
    (_process_event d t a (ProcessResult.taskError false)).effects.filter Effect.isRemove =
      [Effect.removeRunner t] ∧
    (_process_event d t a (ProcessResult.taskError false)).effects.filter Effect.isNoAck =
      [] :=
  ⟨rfl, rfl, rfl⟩

/-- C5: for every event whose `process_event` raises an exception that is
neither a `TaskError` nor a cancellation, the handler calls `no_ack`
exactly once with no sleep before it, issues no `ack`, leaves the registry
untouched, and logs at error severity. -/
theorem unclassified_failure_immediate_noack (d : ℚ) (t a : Nat) :
    (_process_event d t a ProcessResult.otherError).effects.filter Effect.isNoAck =
      [Effect.noAck a] ∧
    (_process_event d t a ProcessResult.otherError).effects.filter Effect.isSleep =
      [] ∧
    (_process_event d t a ProcessResult.otherError).effects.filter Effect.isAck =
      [] ∧
    (_process_event d t a ProcessResult.otherError).effects.filter Effect.isRemove =
      [] ∧
    Effect.logError ∈ (_process_event d t a ProcessResult.otherError).effects :=
  ⟨rfl, rfl, rfl, rfl, List.Mem.head _⟩

/-- C6: a handler cancelled while processing issues exactly one `no_ack`,
inside a block with a five-second deadline and the shield flag set, then
re-raises the cancellation; it never calls `ack` and never touches the
registry. -/
theorem cancellation_noack_shielded_and_reraised (d : ℚ) (t a : Nat) :
    (_process_event d t a ProcessResult.cancelled).outcome =
      HandlerOutcome.reraisedCancelled ∧
    (_process_event d t a ProcessResult.cancelled).effects.filter Effect.isNoAck =
      [Effect.noAck a] ∧
    (_process_event d t a ProcessResult.cancelled).effects.filter Effect.isAck =
      [] ∧
    (_process_event d t a ProcessResult.cancelled).effects.filter Effect.isRemove =
      [] ∧
    (_process_event d t a ProcessResult.cancelled).steps =
      [HStep.blocked
        { deadline := 5, shield := true, effects := [Effect.noAck a] }] :=
  ⟨rfl, rfl, rfl, rfl, rfl⟩

/-- C7 counterexample: the claim asserts the retry-path backoff sleep is
not shielded from outer cancellation; in fact, at retry delay 5, task 1,
handle 1, the run performs its sleep inside a shielded block, and every
sleep it performs is inside a shielded block (`fail_after(retry_delay + 5,
shield=True)`, task_system.py line 99). -/
theorem retry_sleep_shield_counterexample :
    sleepSomewhereShielded (_process_event 5 1 1 (ProcessResult.taskError true)) =
      true ∧
    sleepAlwaysShielded (_process_event 5 1 1 (ProcessResult.taskError true)) =
      true :=
  ⟨rfl, rfl⟩

/-- C7 amended: the backoff sleep of the retryable-failure path runs
inside a block that is shielded from outer cancellation and bounded by a
deadline equal to the configured backoff delay plus a fixed five-second
safety margin, with the `no_ack` after the sleep in the same block, so a
retry in progress cannot block shutdown indefinitely. -/
theorem retry_sleep_shielded_with_deadline (d : ℚ) (t a : Nat) :
    ∃ b, HStep.blocked b ∈ (_process_event d t a (ProcessResult.taskError true)).steps ∧
      b.shield = true ∧ b.deadline = d + 5 ∧
      ∃ i j, i < j ∧ b.effects.get? i = some (Effect.sleep d) ∧
        b.effects.get? j = some (Effect.noAck a) :=
  ⟨{ deadline := d + 5, shield := true,
     effects := [Effect.logDebug, Effect.sleep d, Effect.noAck a] },
   List.Mem.tail _ (List.Mem.head _), rfl, rfl, 1, 2, Nat.lt_succ_self 1, rfl, rfl⟩

/-- C1: the handler closure receives `ack_id` and `event` as spawn-time
parameters but reads `runner` and `task_id` late, from the `start` frame,
which the loop reassigns on every iteration.  When two first events for
tasks 1 and 2 arrive back-to-back before the handler for the first runs
(task 1 resolved to runner instance 0), that handler then invokes
`process_event` on runner instance 1 — the runner constructed for task 2 —
and its finished-path registry deletion removes task 2, leaving finished
task 1 registered.  This refutes the claim that the handler always uses
the runner the loop resolved for its own events task identifier. -/
theorem late_binding_handler_uses_wrong_runner :
    lookupRunner (finishInit (receiveEvent initialLoopState 1 1)).runners 1 =
      some 0 ∧
    backToBackState.pending = [(1, 1), (2, 2)] ∧
    staleFrameFinal.invocations =
      [{ event_task_id := 1, ack_id := 1, used_task_id := 2, used_runner := 1 }] ∧
    staleFrameFinal.runners = [(1, 0)] :=
  ⟨rfl, rfl, rfl, rfl⟩

/-- C8: in every reachable state of the dispatch loop the runner registry
holds at most one runner per task identifier (its key list has no
duplicates), and receiving an event for an already-registered task
identifier constructs nothing: the registry and the construction counter
are unchanged.  Construction, `init`, and registration happen on the loop
itself — `receiveEvent` and `finishInit` are loop steps that cannot
overlap another receive — so back-to-back first events cannot create two
runners. -/
theorem at_most_one_runner_per_task (s : LoopState) (hs : Reachable s) :
    (s.runners.map Prod.fst).Nodup ∧
    ∀ ack t, t ∈ s.runners.map Prod.fst →
      (receiveEvent s ack t).runners = s.runners ∧
      (receiveEvent s ack t).next_runner = s.next_runner := by
  refine ⟨(reachable_registryInv hs).1, fun ack t ht => ?_⟩
  exact receiveEvent_existing ht ack

/-- Witness for C8 at a concrete reachable state: after receiving a first
event for task 1 and finishing its runner initialisation, the registry
keys are duplicate-free and a second event for task 1 changes neither the
registry nor the construction counter. -/
theorem at_most_one_runner_per_task_witness :
    ((finishInit (receiveEvent initialLoopState 1 1)).runners.map Prod.fst).Nodup ∧
    (receiveEvent (finishInit (receiveEvent initialLoopState 1 1)) 2 1).runners =
      (finishInit (receiveEvent initialLoopState 1 1)).runners :=
  ⟨(at_most_one_runner_per_task _
      (Reachable.finish (Reachable.receive 1 1 Reachable.init))).1,
   ((at_most_one_runner_per_task _
      (Reachable.finish (Reachable.receive 1 1 Reachable.init))).2 2 1
      (by decide)).1⟩

/-- C9: `stop` is a total function on every lifecycle state (so it never
raises), running it twice from any state equals running it once, a second
`stop` performs zero `cancel_scope.cancel()` calls, and on the state that
holds both before `start` runs and after `start` has exited (both fields
`None`, restored by the `finally` block) `stop` is the identity. -/
theorem stop_idempotent_and_safe (s : LifecycleState) :
    TaskSystem.stop (TaskSystem.stop s) = TaskSystem.stop s ∧
    TaskSystem.stopCancels (TaskSystem.stop s) = 0 ∧
    TaskSystem.stop { stop_event := none, tg_cancel := none } =
      { stop_event := none, tg_cancel := none } := by
  rcases s with ⟨_ | b, _ | c⟩ <;>
    first
      | exact ⟨rfl, rfl, rfl⟩
      | (cases c <;> exact ⟨rfl, rfl, rfl⟩)

/-- C10: storing a task system in the module slot and reading it back
yields exactly that instance; a second store with a different instance
silently overwrites the slot — no error and no inspection of the previous
value — after which reads return the newer instance. -/
theorem task_system_singleton_get_set (α : Type) (slot : Option α)
    (ts ts2 : α) :
    get_task_system (set_task_system slot ts) = Except.ok ts ∧
    set_task_system (set_task_system slot ts) ts2 = some ts2 ∧
    get_task_system (set_task_system (set_task_system slot ts) ts2) =
      Except.ok ts2 :=
  ⟨rfl, rfl, rfl⟩
